import Mathlib

/-!
# Verification of the Portfolio Aggregation → Analysis → Recommendation pipeline

Shallow embedding of the finance CLI core (`finance/cli/aggregator.py`,
`finance/cli/analyzer.py`, `finance/cli/advisor.py`, constants from
`finance/cli/config.py`).  Monetary amounts and percentages are modelled as
rationals (the Python code uses floats); Python's `round` (banker's rounding,
half to even) is modelled exactly by `pyRound`.  Purely presentational string
fields (`action`, `rationale`, `impact` of a recommendation, freshness
warnings) are omitted from the records; every field inspected by a theorem is
carried through faithfully.  Dictionaries whose key sets are dynamic are
modelled as association lists in insertion order (Python dicts preserve
insertion order), and Python `list.sort` (a stable sort) is modelled by a
stable insertion sort.
-/

namespace Finance

/-! ## Python-style rounding (round half to even) -/

/-- Nearest integer to `x`, ties resolved to the even integer
(the semantics of Python's builtin `round`). -/
def roundHalfEven (x : ℚ) : ℤ :=
  if x - ⌊x⌋ < 1/2 then ⌊x⌋
  else if 1/2 < x - ⌊x⌋ then ⌊x⌋ + 1
  else if ⌊x⌋ % 2 = 0 then ⌊x⌋ else ⌊x⌋ + 1

/-- Python's `round(x, n)`: round to `n` decimal digits, half to even. -/
def pyRound (x : ℚ) (n : ℕ) : ℚ :=
  (roundHalfEven (x * 10 ^ n) : ℚ) / 10 ^ n

theorem roundHalfEven_err (x : ℚ) : |(roundHalfEven x : ℚ) - x| ≤ 1/2 := by
  have h0 : (⌊x⌋ : ℚ) ≤ x := Int.floor_le x
  have h1 : x < (⌊x⌋ : ℚ) + 1 := Int.lt_floor_add_one x
  unfold roundHalfEven
  split
  case isTrue h => rw [abs_le]; constructor <;> linarith
  case isFalse h =>
    split
    case isTrue h2 => rw [abs_le]; push_cast; constructor <;> linarith
    case isFalse h2 =>
      have heq : x - (⌊x⌋ : ℚ) = 1/2 := le_antisymm (not_lt.mp h2) (not_lt.mp h)
      split
      case isTrue h3 => rw [abs_le]; constructor <;> linarith
      case isFalse h3 => rw [abs_le]; push_cast; constructor <;> linarith

theorem pyRound_err (x : ℚ) (n : ℕ) :
    |pyRound x n - x| ≤ 1 / (2 * 10 ^ n) := by
  unfold pyRound
  have h := roundHalfEven_err (x * 10 ^ n)
  have hpow : (0:ℚ) < 10 ^ n := by positivity
  have : |(roundHalfEven (x * 10 ^ n) : ℚ) / 10 ^ n - x|
      = |(roundHalfEven (x * 10 ^ n) : ℚ) - x * 10 ^ n| / 10 ^ n := by
    rw [← abs_of_pos hpow, ← abs_div]
    congr 1
    field_simp
    ring
  rw [this]
  rw [div_le_div_iff₀ hpow (by positivity)]
  calc |(roundHalfEven (x * 10 ^ n) : ℚ) - x * 10 ^ n| * (2 * 10 ^ n)
      ≤ (1/2) * (2 * 10 ^ n) := by
        apply mul_le_mul_of_nonneg_right h (by positivity)
    _ = 1 * 10 ^ n := by ring

/-! ## Association lists (Python dicts in insertion order) -/

/-- `d.get(k, default)` on an association list. -/
def getD (m : List (String × α)) (k : String) (d : α) : α :=
  match m.find? (fun p => p.1 = k) with
  | some p => p.2
  | none => d

/-- `d.get(k)` (`None` when absent). -/
def get? (m : List (String × α)) (k : String) : Option α :=
  (m.find? (fun p => p.1 = k)).map (·.2)

/-- `d[k] = v`: overwrite the binding if present, else append. -/
def setKey (m : List (String × α)) (k : String) (v : α) : List (String × α) :=
  match m with
  | [] => [(k, v)]
  | p :: rest => if p.1 = k then (k, v) :: rest else p :: setKey rest k v

/-! ## Stable insertion sort (Python `list.sort` is stable)

`stableInsert lt x l` walks past every element `y` with `lt y x = true`
(that strictly precedes `x` in the sort order) and places `x` before the
first remaining element; ties therefore keep their original relative order
when the sort is built by folding from the right. -/

def stableInsert (lt : α → α → Bool) (x : α) : List α → List α
  | [] => [x]
  | y :: ys => if lt y x then y :: stableInsert lt x ys else x :: y :: ys

def stableSort (lt : α → α → Bool) : List α → List α
  | [] => []
  | x :: xs => stableInsert lt x (stableSort lt xs)

theorem mem_stableInsert (lt : α → α → Bool) (x a : α) (l : List α) :
    a ∈ stableInsert lt x l ↔ a = x ∨ a ∈ l := by
  induction l with
  | nil => simp [stableInsert]
  | cons y ys ih =>
      simp only [stableInsert]
      split
      · simp only [List.mem_cons, ih]; tauto
      · simp only [List.mem_cons]

theorem mem_stableSort (lt : α → α → Bool) (a : α) (l : List α) :
    a ∈ stableSort lt l ↔ a ∈ l := by
  induction l with
  | nil => simp [stableSort]
  | cons x xs ih =>
      simp only [stableSort, mem_stableInsert, ih, List.mem_cons]

/-! ## Configuration constants (`finance/cli/config.py`) -/

def RETIREMENT_ACCOUNT_TYPES : List String := ["roth_ira", "traditional_ira", "401k"]

def CRYPTO_ETF_SYMBOLS : List String := ["BITO", "GBTC", "ETHE", "IBIT", "FBTC"]

def CATEGORY_ORDER : List String := ["retirement", "taxable_equities", "crypto", "cash"]

def CATEGORY_NAMES : List (String × String) :=
  [("retirement", "Retirement"), ("taxable_equities", "Taxable Equities"),
   ("crypto", "Crypto"), ("cash", "Cash & Equivalents")]

def ACCOUNT_ROW_NAMES : List (String × String) :=
  [("roth_ira", "Roth IRA"), ("brokerage", "Taxable Brokerage (Index)"),
   ("traditional_ira", "Traditional IRA")]

/-- Python's `str.title()`, specialised to the space-separated inputs it is
applied to in this code base. -/
def pyTitle (s : String) : String :=
  String.intercalate " " ((s.splitOn " ").map String.capitalize)

/-! ## Portfolio Aggregator (`finance/cli/aggregator.py`) -/

structure Holding where
  symbol : String
  value : ℚ
  quantity : Option ℚ := none
  price : Option ℚ := none
deriving DecidableEq

structure SnapshotPortfolio where
  holdings : List Holding := []
  fdic_deposits : ℚ := 0
deriving DecidableEq

structure Snapshot where
  statement_date : Option String := none
  portfolio : SnapshotPortfolio
deriving DecidableEq

structure CryptoEntry where
  quantity : ℚ := 0
  notes : Option String := none
deriving DecidableEq

structure BalanceEntry where
  name : Option String := none
  balance : ℚ := 0
deriving DecidableEq

structure HoldingsRecord where
  crypto : List (String × CryptoEntry) := []
  bank_accounts : List (String × BalanceEntry) := []
  other : List (String × BalanceEntry) := []
  last_updated : Option String := none
deriving DecidableEq

/-- A single entry of the `by_asset` list.  The `details` sub-dictionary of the
Python code is inlined as optional fields; `symbol` is populated exactly for
the crypto-ETF assets emitted from snapshots. -/
structure Asset where
  name : String
  category : String
  value : ℚ
  source : String
  as_of : Option String := none
  top_holdings : List String := []
  symbol : Option String := none
  quantity : Option ℚ := none
  price : Option ℚ := none
  notes : Option String := none
deriving DecidableEq

/-- `categorize_account`. -/
def categorizeAccount (account_type : String) : String :=
  if account_type ∈ RETIREMENT_ACCOUNT_TYPES then "retirement" else "taxable_equities"

/-- `categorize_symbol`: crypto ETFs are always `crypto` regardless of account. -/
def categorizeSymbol (symbol account_type : String) : String :=
  if symbol.toUpper ∈ CRYPTO_ETF_SYMBOLS then "crypto" else categorizeAccount account_type

/-- Is this holding a crypto-ETF holding? -/
def isEtf (h : Holding) : Bool := CRYPTO_ETF_SYMBOLS.contains h.symbol.toUpper

/-- The non-crypto-ETF holdings, in snapshot order. -/
def nonEtfHoldings (hs : List Holding) : List Holding := hs.filter (fun h => !isEtf h)

/-- The crypto-ETF holdings, in snapshot order. -/
def etfHoldings (hs : List Holding) : List Holding := hs.filter isEtf

/-- `securities_value` accumulated by the snapshot loop. -/
def securitiesValue (hs : List Holding) : ℚ := ((nonEtfHoldings hs).map (·.value)).sum

/-- `crypto_etf_value` accumulated by the snapshot loop. -/
def cryptoEtfValue (hs : List Holding) : ℚ := ((etfHoldings hs).map (·.value)).sum

/-- `top_holdings`: the first three non-ETF symbols, in order. -/
def topHoldings (hs : List Holding) : List String :=
  ((nonEtfHoldings hs).map (·.symbol)).take 3

def accountRowName (account_type : String) : String :=
  getD ACCOUNT_ROW_NAMES account_type (pyTitle (account_type.replace "_" " "))

/-- Assets emitted for one account snapshot: the aggregated securities asset,
each crypto-ETF holding as its own asset, and the FDIC deposits. -/
def snapshotAssets (account_type : String) (snap : Snapshot) : List Asset :=
  let p := snap.portfolio
  let account_name := accountRowName account_type
  let sec := securitiesValue p.holdings
  let secAssets : List Asset :=
    if 0 < sec then
      [{ name := account_name, category := categorizeAccount account_type,
         value := sec, source := "snapshot", as_of := snap.statement_date,
         top_holdings := topHoldings p.holdings }]
    else []
  let etfAssets : List Asset :=
    if 0 < cryptoEtfValue p.holdings then
      (etfHoldings p.holdings).map (fun h =>
        { name := h.symbol ++ " (" ++ account_name ++ ")", category := "crypto",
          value := h.value, source := "snapshot", as_of := snap.statement_date,
          symbol := some h.symbol, quantity := h.quantity, price := h.price })
    else []
  let fdicAssets : List Asset :=
    if 0 < p.fdic_deposits then
      [{ name := "FDIC Deposits (" ++ account_name ++ ")", category := "cash",
         value := p.fdic_deposits, source := "snapshot", as_of := snap.statement_date }]
    else []
  secAssets ++ etfAssets ++ fdicAssets

/-- Manual crypto holdings: `quantity × live price`, skipped when the price is
missing/zero (Python truthiness of `price`) or the value is not positive. -/
def cryptoHoldingAssets (holdings : HoldingsRecord) (crypto_prices : List (String × ℚ)) :
    List Asset :=
  holdings.crypto.flatMap (fun p =>
    let qty := p.2.quantity
    match get? crypto_prices p.1 with
    | some price =>
        if price ≠ 0 ∧ 0 < qty * price then
          [{ name := p.1, category := "crypto", value := qty * price,
             source := "holdings", as_of := holdings.last_updated,
             quantity := some qty, price := some price, notes := p.2.notes }]
        else []
    | none => [])

def bankAssets (holdings : HoldingsRecord) : List Asset :=
  holdings.bank_accounts.flatMap (fun p =>
    if 0 < p.2.balance then
      [{ name := p.2.name.getD (pyTitle (p.1.replace "_" " ")), category := "cash",
         value := p.2.balance, source := "holdings", as_of := holdings.last_updated }]
    else [])

/-- The "other" holdings bucket: HSA counts as retirement, all else as cash. -/
def otherAssets (holdings : HoldingsRecord) : List Asset :=
  holdings.other.flatMap (fun p =>
    if 0 < p.2.balance then
      [{ name := p.2.name.getD (pyTitle (p.1.replace "_" " ")),
         category := if p.1.toLower = "hsa" then "retirement" else "cash",
         value := p.2.balance, source := "holdings", as_of := holdings.last_updated }]
    else [])

/-- Python `assets.sort(key=value, reverse=True)`: stable descending sort. -/
def sortAssetsDesc (assets : List Asset) : List Asset :=
  stableSort (fun y x => decide (x.value < y.value)) assets

/-- `build_asset_list`. -/
def buildAssetList (snapshots : List (String × Snapshot)) (holdings : HoldingsRecord)
    (crypto_prices : List (String × ℚ)) : List Asset :=
  sortAssetsDesc
    ((snapshots.flatMap (fun p => snapshotAssets p.1 p.2))
      ++ cryptoHoldingAssets holdings crypto_prices
      ++ bankAssets holdings
      ++ otherAssets holdings)

structure CategorySummary where
  value : ℚ
  pct : ℚ
  assets : List String
deriving DecidableEq

def categoryAssets (assets : List Asset) (cat : String) : List Asset :=
  assets.filter (fun a => decide (a.category = cat))

def categoryValue (assets : List Asset) (cat : String) : ℚ :=
  ((categoryAssets assets cat).map (·.value)).sum

/-- `build_category_summary`: per fixed category, its value, its percentage of
`total_value` rounded to one decimal (0 when the total is 0), and the asset
names. -/
def buildCategorySummary (assets : List Asset) (total_value : ℚ) :
    List (String × CategorySummary) :=
  CATEGORY_ORDER.map (fun cat =>
    (cat, { value := categoryValue assets cat,
            pct := if 0 < total_value
                   then pyRound (categoryValue assets cat / total_value * 100) 1
                   else 0,
            assets := (categoryAssets assets cat).map (·.name) }))

/-- `get_unified_portfolio`'s result record.  `data_freshness` and `warnings`
are presentation-only and omitted; `as_of` (a formatted timestamp in Python)
is modelled by the numeric time of computation. -/
structure PortfolioResult where
  success : Bool
  error : Option String := none
  as_of : ℚ := 0
  total_value : ℚ := 0
  by_category : List (String × CategorySummary) := []
  by_asset : List Asset := []
deriving DecidableEq

def noDataError : String :=
  "No portfolio data found. Run \x27finance pull\x27 to import statements or \x27finance holdings set\x27 to add holdings."

/-- The data sources read by one aggregation: the latest snapshots by account
type, the manual holdings record, and the price map that
`fetch_crypto_prices` would return if called. -/
structure AggregatorEnv where
  snapshots : List (String × Snapshot) := []
  holdings : HoldingsRecord := {}
  fetched_prices : List (String × ℚ) := []
deriving DecidableEq

/-- The body of `get_unified_portfolio` past the cache check: fail closed when
there are no snapshots and no non-empty holdings bucket, otherwise build the
asset list, total, and category summary. -/
def computeUnifiedPortfolio (env : AggregatorEnv) (now : ℚ)
    (include_crypto_prices : Bool) : PortfolioResult :=
  let snapshots := env.snapshots
  let holdings := env.holdings
  let has_snapshots : Prop := ¬ snapshots = []
  let has_holdings : Prop :=
    ¬ holdings.crypto = [] ∨ ¬ holdings.bank_accounts = [] ∨ ¬ holdings.other = []
  if ¬ has_snapshots ∧ ¬ has_holdings then
    { success := false, error := some noDataError }
  else
    let crypto_prices :=
      if include_crypto_prices ∧ ¬ holdings.crypto = [] then env.fetched_prices else []
    let assets := buildAssetList snapshots holdings crypto_prices
    let total_value := (assets.map (·.value)).sum
    { success := true, as_of := now, total_value := pyRound total_value 2,
      by_category := buildCategorySummary assets total_value, by_asset := assets }

/-- The module-level cache: one stored result per cache key, and a single
shared timestamp `_portfolio_cache_time` updated on every write. -/
structure CacheState where
  cache : List (String × PortfolioResult) := []
  time : ℚ := 0
deriving DecidableEq

def PORTFOLIO_CACHE_TTL : ℚ := 30

/-- `get_unified_portfolio` with its cache: return the cached entry for the key
when the shared timestamp is younger than the TTL, otherwise recompute and (on
success) write the entry and refresh the shared timestamp.  The third component
reports whether a fresh computation ran. -/
def getUnifiedPortfolio (env : AggregatorEnv) (now : ℚ) (include_crypto_prices : Bool)
    (st : CacheState) : PortfolioResult × CacheState × Bool :=
  let cache_key := if include_crypto_prices then "True" else "False"
  let cache_age := now - st.time
  match (if cache_age < PORTFOLIO_CACHE_TTL then get? st.cache cache_key else none) with
  | some cached => (cached, st, false)
  | none =>
      let result := computeUnifiedPortfolio env now include_crypto_prices
      if result.success then
        (result, { cache := setKey st.cache cache_key result, time := now }, true)
      else (result, st, true)

/-! ## Analyzer (`finance/cli/analyzer.py`)

`calculate_months_between` parses `YYYY-MM` dates with `datetime.strptime`
relative to `datetime.now()`; that environment-dependent computation enters the
embedding as the function argument `monthsBetweenToday` (`none` models the
`ValueError` branch). -/

structure GoalInput where
  description : Option String := none
  target : Option ℚ := none
  deadline : Option String := none
deriving DecidableEq

structure MonthlyCashFlow where
  gross_income : Option ℚ := none
  shared_expenses : Option ℚ := none
  crypto_contributions : Option ℚ := none
  roth_contributions : Option ℚ := none
  hsa_contributions : Option ℚ := none
  discretionary : Option ℚ := none
deriving DecidableEq

structure TaxSituation where
  roth_maxed : Option Bool := none
deriving DecidableEq

structure Profile where
  monthly_cash_flow : MonthlyCashFlow := {}
  tax_situation : TaxSituation := {}
  goals_short_term : GoalInput := {}
  goals_medium_term : GoalInput := {}
  goals_long_term : GoalInput := {}
deriving DecidableEq

/-- `get_goal_current_value`: short-term goals read the cash category value,
medium/long-term goals read the total portfolio value. -/
def getGoalCurrentValue (goal_type : String) (portfolio : PortfolioResult) : ℚ :=
  if goal_type = "short_term" then
    match get? portfolio.by_category "cash" with
    | some cd => cd.value
    | none => 0
  else portfolio.total_value

/-- `calculate_monthly_surplus`; every missing cash-flow input defaults to 0. -/
def calculateMonthlySurplus (profile : Profile) : ℚ :=
  let cf := profile.monthly_cash_flow
  cf.gross_income.getD 0 - cf.shared_expenses.getD 0 - cf.crypto_contributions.getD 0
    - cf.roth_contributions.getD 0 - cf.hsa_contributions.getD 0 - cf.discretionary.getD 0

/-- `get_current_monthly_allocation`. -/
def getCurrentMonthlyAllocation (goal_type : String) (profile : Profile) : ℚ :=
  let cf := profile.monthly_cash_flow
  let surplus := calculateMonthlySurplus profile
  if goal_type = "short_term" ∨ goal_type = "medium_term" then surplus
  else surplus + cf.roth_contributions.getD 0 + cf.hsa_contributions.getD 0

/-- The analysis record `analyze_single_goal` builds up. -/
structure GoalResult where
  description : Option String := none
  target : Option ℚ := none
  deadline : Option String := none
  status : String := ""
  current : Option ℚ := none
  progress_pct : Option ℚ := none
  qualitative_note : Option String := none
  current_monthly : Option ℚ := none
  months_remaining : Option ℤ := none
  monthly_required : Option ℚ := none
  on_track : Option Bool := none
  months_at_current_pace : Option ℚ := none
deriving DecidableEq

/-- `analyze_single_goal`.  The chained early returns become nested matches;
`not description` / `not deadline` test Python falsiness (absent or empty). -/
def analyzeSingleGoal (goal_type : String) (goal_data : GoalInput)
    (portfolio : PortfolioResult) (profile : Profile)
    (monthsBetweenToday : String → Option ℤ) : GoalResult :=
  let base : GoalResult :=
    { description := goal_data.description, target := goal_data.target,
      deadline := goal_data.deadline }
  if goal_data.description = none ∨ goal_data.description = some "" then
    { base with status := "not_set" }
  else
    let current := getGoalCurrentValue goal_type portfolio
    let qualitative : GoalResult :=
      { base with
          current := some current
          status := "qualitative"
          qualitative_note := some "No numeric target set - track directional progress" }
    match goal_data.target with
    | none => qualitative
    | some t =>
      if t ≤ 0 then qualitative
      else
        let progress_pct := pyRound (current / t * 100) 1
        let current_monthly := getCurrentMonthlyAllocation goal_type profile
        let noDeadline : GoalResult :=
          { base with
              current := some current
              progress_pct := some progress_pct
              current_monthly := some current_monthly
              status := "no_deadline" }
        match goal_data.deadline with
        | none => noDeadline
        | some dl =>
          if dl = "" then noDeadline
          else
            match monthsBetweenToday dl with
            | none =>
                { base with
                    current := some current
                    progress_pct := some progress_pct
                    current_monthly := some current_monthly
                    status := "invalid_deadline" }
            | some m =>
                let remaining_amount := t - current
                if remaining_amount ≤ 0 then
                  { base with
                      current := some current
                      progress_pct := some progress_pct
                      current_monthly := some current_monthly
                      months_remaining := some m
                      monthly_required := some 0
                      on_track := some true
                      months_at_current_pace := some 0
                      status := "complete" }
                else if m ≤ 0 then
                  { base with
                      current := some current
                      progress_pct := some progress_pct
                      current_monthly := some current_monthly
                      months_remaining := some m
                      on_track := some false
                      status := "past_deadline" }
                else
                  let monthly_required := remaining_amount / (m : ℚ)
                  let on_track :=
                    if current_monthly ≠ 0 then decide (monthly_required ≤ current_monthly)
                    else false
                  { base with
                      current := some current
                      progress_pct := some progress_pct
                      current_monthly := some current_monthly
                      months_remaining := some m
                      monthly_required := some (pyRound monthly_required 2)
                      months_at_current_pace :=
                        if 0 < current_monthly
                        then some (pyRound (remaining_amount / current_monthly) 1) else none
                      on_track := some on_track
                      status := if on_track then "on_track" else "behind" }

structure GoalsSummary where
  goals_on_track : ℕ := 0
  goals_behind : ℕ := 0
  goals_qualitative : ℕ := 0
  most_urgent : Option String := none
deriving DecidableEq

structure GoalsAnalysis where
  monthly_surplus : ℚ := 0
  short_term : GoalResult := {}
  medium_term : GoalResult := {}
  long_term : GoalResult := {}
  summary : GoalsSummary := {}
deriving DecidableEq

/-- `goal_analysis.get(name, {})` for the three per-goal entries. -/
def goalsGet (g : GoalsAnalysis) (name : String) : GoalResult :=
  if name = "short_term" then g.short_term
  else if name = "medium_term" then g.medium_term
  else if name = "long_term" then g.long_term
  else {}

/-- The summary loop of `analyze_goals`: counts per status bucket and the
behind/past-deadline goal with the smallest known `months_remaining`
(strict improvement, so ties keep the earlier goal type). -/
def summarizeGoals (gs : List (String × GoalResult)) : GoalsSummary :=
  let step := fun (acc : GoalsSummary × Option ℤ) (p : String × GoalResult) =>
    let s := acc.1
    let best := acc.2
    let status := p.2.status
    if status = "on_track" ∨ status = "complete" then
      ({ s with goals_on_track := s.goals_on_track + 1 }, best)
    else if status = "behind" ∨ status = "past_deadline" then
      let s2 := { s with goals_behind := s.goals_behind + 1 }
      match p.2.months_remaining, best with
      | some m, none => ({ s2 with most_urgent := some p.1 }, some m)
      | some m, some b =>
          if m < b then ({ s2 with most_urgent := some p.1 }, some m) else (s2, best)
      | none, _ => (s2, best)
    else if status = "qualitative" ∨ status = "no_deadline" then
      ({ s with goals_qualitative := s.goals_qualitative + 1 }, best)
    else (s, best)
  (gs.foldl step ({}, none)).1

/-- `analyze_goals`. -/
def analyzeGoals (portfolio : PortfolioResult) (profile : Profile)
    (monthsBetweenToday : String → Option ℤ) : GoalsAnalysis :=
  let st := analyzeSingleGoal "short_term" profile.goals_short_term portfolio profile
    monthsBetweenToday
  let mt := analyzeSingleGoal "medium_term" profile.goals_medium_term portfolio profile
    monthsBetweenToday
  let lt := analyzeSingleGoal "long_term" profile.goals_long_term portfolio profile
    monthsBetweenToday
  { monthly_surplus := calculateMonthlySurplus profile,
    short_term := st, medium_term := mt, long_term := lt,
    summary := summarizeGoals [("short_term", st), ("medium_term", mt), ("long_term", lt)] }

/-! ### Allocation analysis -/

structure Allocation where
  retirement : ℚ := 0
  taxable_equities : ℚ := 0
  crypto : ℚ := 0
  cash : ℚ := 0
deriving DecidableEq

def BASELINE_ALLOCATION : Allocation :=
  { retirement := 40, taxable_equities := 20, crypto := 25, cash := 15 }

def urgent_goal_boost_low : ℚ := 10

def urgent_goal_boost_high : ℚ := 20

def allocationToList (a : Allocation) : List (String × ℚ) :=
  [("retirement", a.retirement), ("taxable_equities", a.taxable_equities),
   ("crypto", a.crypto), ("cash", a.cash)]

/-- `needle in hay` on Python strings. -/
def strHasSub (hay needle : String) : Bool := decide (needle.toList <:+: hay.toList)

/-- `calculate_recommended_allocation`: baseline, urgent-short-term-goal cash
boost (60% from crypto / 40% from equities), Roth note, life-stage cash boost
(from crypto, only under a 30% cash ceiling), then normalization to 100 by a
single scaling factor (with rounding) when the sum moved off 100. -/
def calculateRecommendedAllocation (profile : Profile) (goal_analysis : GoalsAnalysis) :
    Allocation × String :=
  let r0 := BASELINE_ALLOCATION
  let short_term := goal_analysis.short_term
  let urgentStep : Allocation × List String :=
    match short_term.months_remaining with
    | some m =>
        if m ≤ 12 ∧ short_term.on_track ≠ some true then
          let cash_boost := if m ≤ 6 then urgent_goal_boost_high else urgent_goal_boost_low
          let adj := if m ≤ 6 then s!"Emergency fund deadline in {m} months (urgent)"
                     else s!"Emergency fund deadline in {m} months"
          ({ r0 with
               cash := r0.cash + cash_boost
               crypto := r0.crypto - cash_boost * 0.6
               taxable_equities := r0.taxable_equities - cash_boost * 0.4 }, [adj])
        else (r0, [])
    | none => (r0, [])
  let r1 := urgentStep.1
  let adjustments1 := urgentStep.2
  let adjustments2 :=
    if profile.tax_situation.roth_maxed = some true then
      adjustments1 ++ ["Roth IRA maxed - maintaining retirement priority"]
    else adjustments1
  let short_desc := (short_term.description.getD "").toLower
  let babyStep : Allocation × List String :=
    if strHasSub short_desc "baby" ∨ strHasSub short_desc "child" then
      if r1.cash < 30 then
        ({ r1 with cash := r1.cash + 5, crypto := r1.crypto - 5 },
         adjustments2 ++ ["New baby expected - extra liquidity buffer"])
      else (r1, adjustments2)
    else (r1, adjustments2)
  let r2 := babyStep.1
  let adjustments := babyStep.2
  let total := r2.retirement + r2.taxable_equities + r2.crypto + r2.cash
  let r3 :=
    if total ≠ 100 then
      { retirement := pyRound (r2.retirement * (100 / total)) 1,
        taxable_equities := pyRound (r2.taxable_equities * (100 / total)) 1,
        crypto := pyRound (r2.crypto * (100 / total)) 1,
        cash := pyRound (r2.cash * (100 / total)) 1 }
    else r2
  let reasoning :=
    if adjustments = [] then "Standard allocation for high risk tolerance"
    else String.intercalate "; " adjustments
  (r3, reasoning)

structure AllocationAnalysis where
  current : List (String × ℚ) := []
  recommended : List (String × ℚ) := []
  reasoning : String := ""
  drift : List (String × ℚ) := []
  significant_drifts : List String := []
  rebalance_needed : Bool := false
deriving DecidableEq

/-- `analyze_allocation`: current percentages per category, the recommended
allocation, per-category drift (current − recommended, rounded to one
decimal), significant drifts at `|diff| ≥ 5`, and `rebalance_needed` when any
rounded drift has `|d| ≥ 7`. -/
def analyzeAllocation (portfolio : PortfolioResult) (profile : Profile)
    (goal_analysis : GoalsAnalysis) : AllocationAnalysis :=
  let current := CATEGORY_ORDER.map (fun cat =>
    (cat, match get? portfolio.by_category cat with
          | some cd => cd.pct
          | none => 0))
  let calcResult := calculateRecommendedAllocation profile goal_analysis
  let rec_list := allocationToList calcResult.1
  let drift := CATEGORY_ORDER.map (fun cat =>
    (cat, pyRound (getD current cat 0 - getD rec_list cat 0) 1))
  let significant := CATEGORY_ORDER.filter (fun cat =>
    decide (5 ≤ |getD current cat 0 - getD rec_list cat 0|))
  { current := current, recommended := rec_list, reasoning := calcResult.2,
    drift := drift, significant_drifts := significant,
    rebalance_needed := drift.any (fun p => decide (7 ≤ |p.2|)) }

/-! ### Market context -/

structure CoinData where
  price : Option ℚ := none
  change_7d : Option ℚ := none
  change_30d : Option ℚ := none
deriving DecidableEq

structure CryptoMarketData where
  btc : Option CoinData := none
  eth : Option CoinData := none
  error : Option String := none
deriving DecidableEq

structure Sp500Data where
  price : Option ℚ := none
  change_7d : Option ℚ := none
  change_30d : Option ℚ := none
  error : Option String := none
deriving DecidableEq

structure Opportunity where
  asset : String
  signal : String
  magnitude : ℚ
  priority : String
  suggestion : String
deriving DecidableEq

def crypto_potential_dca : ℚ := -10

def crypto_strong_dca : ℚ := -20

def sp500_pullback : ℚ := -5

def sp500_correction : ℚ := -10

/-- The per-coin 7-day-drop checks of `detect_opportunities` (the BTC and ETH
blocks are identical up to the asset name). -/
def cryptoCoinOpportunities (assetName : String) (coin : Option CoinData) :
    List Opportunity :=
  match coin with
  | some c =>
      match c.change_7d with
      | some change =>
          if change ≤ crypto_strong_dca then
            [{ asset := assetName, signal := "7d_drop", magnitude := pyRound change 1,
               priority := "high",
               suggestion := "Significant dip - strong DCA signal if aligned with strategy" }]
          else if change ≤ crypto_potential_dca then
            [{ asset := assetName, signal := "7d_drop", magnitude := pyRound change 1,
               priority := "medium", suggestion := "Potential DCA opportunity" }]
          else []
      | none => []
  | none => []

/-- The S&P 500 block of `detect_opportunities`: the whole block is guarded by
`change_7d is not None`; inside it the 30-day correction rule is checked
before the 7-day pullback rule. -/
def sp500Opportunities (sp : Sp500Data) : List Opportunity :=
  match sp.change_7d with
  | some change_7d =>
      let corr := fun (c30 : ℚ) =>
        ({ asset := "S&P 500", signal := "30d_drop", magnitude := pyRound c30 1,
           priority := "high",
           suggestion := "Correction territory - consider adding to index positions" } :
           Opportunity)
      let pullback : Opportunity :=
        { asset := "S&P 500", signal := "7d_drop", magnitude := pyRound change_7d 1,
          priority := "medium",
          suggestion := "Market pullback - consider adding to positions" }
      match sp.change_30d with
      | some change_30d =>
          if change_30d ≤ sp500_correction then [corr change_30d]
          else if change_7d ≤ sp500_pullback then [pullback]
          else []
      | none => if change_7d ≤ sp500_pullback then [pullback] else []
  | none => []

/-- `detect_opportunities`. -/
def detectOpportunities (crypto_data : CryptoMarketData) (sp500_data : Sp500Data) :
    List Opportunity :=
  cryptoCoinOpportunities "BTC" crypto_data.btc
    ++ cryptoCoinOpportunities "ETH" crypto_data.eth
    ++ sp500Opportunities sp500_data

/-- The slice of `get_market_context` output that the advisor consumes. -/
structure MarketContext where
  opportunities : List Opportunity := []
deriving DecidableEq

/-- The combined record returned by `get_full_analysis`. -/
structure FullAnalysis where
  goals : GoalsAnalysis := {}
  allocation : AllocationAnalysis := {}
  market : Option MarketContext := none
  monthly_surplus : ℚ := 0
deriving DecidableEq

/-! ## Advisor (`finance/cli/advisor.py`)

The `Recommendation` dataclass carries free-text `action`/`rationale`/`impact`
fields built with number formatting; those display strings are omitted here.
The `numbers` payload is kept only where a theorem consumes it (the surplus
recommendation's allocation list). -/

def goal_deadline_urgent : ℤ := 12

def goal_deadline_critical : ℤ := 6

def allocation_drift_high : ℚ := 10

def allocation_drift_medium : ℚ := 5

def rebalance_trigger : ℚ := 7

def roth_ira_annual_limit : ℚ := 7000

/-- One entry of the surplus recommendation's `numbers["allocations"]` list. -/
structure SurplusAlloc where
  destination : String
  amount : ℚ
  reason : String
  priority : ℕ
deriving DecidableEq

structure Recommendation where
  type : String
  priority : String
  allocations : List SurplusAlloc := []
deriving DecidableEq

/-- `_category_name`. -/
def categoryName (cat : String) : String :=
  getD CATEGORY_NAMES cat (pyTitle (cat.replace "_" " "))

/-- `_create_goal_behind_recommendation` (returns `None` when the months or
required pace are unknown). -/
def createGoalBehindRecommendation (goal : GoalResult) : Option Recommendation :=
  match goal.months_remaining, goal.monthly_required with
  | some months_remaining, some _ =>
      some { type := "surplus"
             priority :=
               if months_remaining ≤ goal_deadline_critical then "high"
               else if months_remaining ≤ goal_deadline_urgent then "high"
               else "medium" }
  | _, _ => none

/-- `_create_past_deadline_recommendation` (returns `None` without a target). -/
def createPastDeadlineRecommendation (goal : GoalResult) : Option Recommendation :=
  match goal.target with
  | some _ => some { type := "warning", priority := "high" }
  | none => none

/-- `generate_goal_recommendations`. -/
def generateGoalRecommendations (goal_analysis : GoalsAnalysis) : List Recommendation :=
  (["short_term", "medium_term", "long_term"].map (fun goal_type =>
    let goal := goalsGet goal_analysis goal_type
    if goal.status = "behind" then (createGoalBehindRecommendation goal).toList
    else if goal.status = "past_deadline" then
      (createPastDeadlineRecommendation goal).toList
    else [])).flatten

/-- `generate_allocation_recommendations`: informational record when no
rebalance is needed; otherwise one recommendation redirecting from the largest
over-allocated (drift ≥ 5) to the largest under-allocated (drift ≤ −5)
category, a reduced one when only an over-allocated category exists, and
nothing when only under-allocated categories exist. -/
def generateAllocationRecommendations (allocation_analysis : AllocationAnalysis) :
    List Recommendation :=
  let drift := allocation_analysis.drift
  if ¬ allocation_analysis.rebalance_needed then
    [{ type := "rebalance", priority := "low" }]
  else
    let over_allocated := (CATEGORY_ORDER.filter (fun cat =>
        decide (allocation_drift_medium ≤ getD drift cat 0))).map
      (fun cat => (cat, getD drift cat 0))
    let under_allocated := (CATEGORY_ORDER.filter (fun cat =>
        decide (getD drift cat 0 ≤ -allocation_drift_medium))).map
      (fun cat => (cat, getD drift cat 0))
    let over_sorted := stableSort (fun y x => decide (x.2 < y.2)) over_allocated
    let under_sorted := stableSort (fun y x => decide (y.2 < x.2)) under_allocated
    match over_sorted, under_sorted with
    | over0 :: _, _ :: _ =>
        [{ type := "rebalance"
           priority := if allocation_drift_high ≤ |over0.2| then "high" else "medium" }]
    | _ :: _, [] => [{ type := "rebalance", priority := "medium" }]
    | [], _ => []

/-- `generate_opportunity_recommendations`: one recommendation per market
opportunity, downgraded one priority tier when a most-urgent behind goal
exists. -/
def generateOpportunityRecommendations (market_context : MarketContext)
    (goal_analysis : GoalsAnalysis) : List Recommendation :=
  let most_urgent_goal := goal_analysis.summary.most_urgent
  let goals_behind := goal_analysis.summary.goals_behind
  market_context.opportunities.map (fun opp =>
    let downgraded :=
      match most_urgent_goal with
      | some mu =>
          if mu ≠ "" ∧ 0 < goals_behind then
            if opp.priority = "high" then "medium"
            else if opp.priority = "medium" then "low"
            else opp.priority
          else opp.priority
      | none => opp.priority
    { type := "opportunity", priority := downgraded })

/-! ### The surplus waterfall (`generate_surplus_recommendations`)

Each step transforms the pair (remaining surplus, allocations so far). -/

/-- Step 1: the most-urgent behind goal's monthly shortfall, capped by the
remaining surplus. -/
def waterfallStep1 (goals : GoalsAnalysis) (s : ℚ × List SurplusAlloc) :
    ℚ × List SurplusAlloc :=
  let remaining_surplus := s.1
  match goals.summary.most_urgent with
  | some most_urgent =>
      if most_urgent ≠ "" then
        let goal_data := goalsGet goals most_urgent
        if goal_data.status = "behind" then
          let shortfall :=
            goal_data.monthly_required.getD 0 - goal_data.current_monthly.getD 0
          let allocation_amount := min (max 0 shortfall) remaining_surplus
          if 0 < allocation_amount then
            (remaining_surplus - allocation_amount,
             s.2 ++ [{ destination :=
                         goal_data.description.getD (pyTitle (most_urgent.replace "_" " "))
                       amount := allocation_amount
                       reason := "urgent_goal"
                       priority := 1 }])
          else s
        else s
      else s
  | none => s

/-- Step 2: Roth IRA monthly headroom (annual limit / 12 minus the current
monthly contribution), capped by the remaining surplus, only when at least
$50; the recorded amount is rounded, the consumed amount is not. -/
def waterfallStep2 (tax : TaxSituation) (cf : MonthlyCashFlow)
    (s : ℚ × List SurplusAlloc) : ℚ × List SurplusAlloc :=
  let remaining_surplus := s.1
  if tax.roth_maxed ≠ some true ∧ 0 < remaining_surplus then
    let roth_monthly := cf.roth_contributions.getD 0
    let roth_monthly_max := roth_ira_annual_limit / 12
    if roth_monthly < roth_monthly_max then
      let additional := min (roth_monthly_max - roth_monthly) remaining_surplus
      if 50 ≤ additional then
        (remaining_surplus - additional,
         s.2 ++ [{ destination := "Roth IRA"
                   amount := pyRound additional 0
                   reason := "tax_advantaged"
                   priority := 2 }])
      else s
    else s
  else s

/-- Step 3: the largest under-allocated category (drift strictly below −5)
absorbs the whole remaining surplus. -/
def waterfallStep3 (allocation : AllocationAnalysis) (s : ℚ × List SurplusAlloc) :
    ℚ × List SurplusAlloc :=
  let remaining_surplus := s.1
  if 0 < remaining_surplus then
    let under_allocated := (allocation.drift.filter (fun p =>
        decide (p.2 < -allocation_drift_medium))).map (fun p => (p.1, |p.2|))
    match stableSort (fun y x => decide (x.2 < y.2)) under_allocated with
    | primary :: _ =>
        (0, s.2 ++ [{ destination := categoryName primary.1
                      amount := pyRound remaining_surplus 0
                      reason := "allocation_drift"
                      priority := 3 }])
    | [] => s
  else s

/-- Step 4: whatever still remains is split between retirement and taxable
equities, proportional to their recommended percentages. -/
def waterfallStep4 (allocation : AllocationAnalysis) (s : ℚ × List SurplusAlloc) :
    ℚ × List SurplusAlloc :=
  let remaining_surplus := s.1
  if 0 < remaining_surplus then
    let retirement_pct := getD allocation.recommended "retirement" 40
    let equities_pct := getD allocation.recommended "taxable_equities" 20
    let total_pct := retirement_pct + equities_pct
    if 0 < total_pct then
      let retirement_share := retirement_pct / total_pct
      (remaining_surplus,
       s.2 ++ [{ destination := "Retirement"
                 amount := pyRound (remaining_surplus * retirement_share) 0
                 reason := "default_split"
                 priority := 4 },
               { destination := "Taxable Equities"
                 amount := pyRound (remaining_surplus * (1 - retirement_share)) 0
                 reason := "default_split"
                 priority := 4 }])
    else s
  else s

/-- The four ordered waterfall steps, started at (surplus, []). -/
def surplusWaterfall (analysis : FullAnalysis) (profile : Profile) :
    ℚ × List SurplusAlloc :=
  waterfallStep4 analysis.allocation
    (waterfallStep3 analysis.allocation
      (waterfallStep2 profile.tax_situation profile.monthly_cash_flow
        (waterfallStep1 analysis.goals (analysis.monthly_surplus, []))))

/-- `generate_surplus_recommendations`: a high-priority warning when the
surplus is not positive, else one combined surplus recommendation carrying the
waterfall allocations (high priority iff the urgent-goal step consumed). -/
def generateSurplusRecommendations (analysis : FullAnalysis) (profile : Profile) :
    List Recommendation :=
  let surplus := analysis.monthly_surplus
  if surplus ≤ 0 then
    [{ type := "warning", priority := "high" }]
  else
    let allocations := (surplusWaterfall analysis profile).2
    if allocations ≠ [] then
      [{ type := "surplus"
         priority :=
           if allocations.any (fun a => decide (a.reason = "urgent_goal")) then "high"
           else "medium"
         allocations := allocations }]
    else []

/-! ### Final merge (`generate_recommendations`) -/

/-- `priority_order = {"high": 0, "medium": 1, "low": 2}` with `.get(p, 99)`. -/
def priorityOrder (p : String) : ℕ :=
  if p = "high" then 0 else if p = "medium" then 1 else if p = "low" then 2 else 99

/-- Python's stable `list.sort(key=priority_order)`. -/
def sortRecommendations (recs : List Recommendation) : List Recommendation :=
  stableSort (fun y x => decide (priorityOrder y.priority < priorityOrder x.priority)) recs

structure RecommendationSummary where
  high_priority_count : ℕ
  total_count : ℕ
  action_required : Bool
deriving DecidableEq

structure RecommendationBundle where
  success : Bool := true
  recommendations : List Recommendation := []
  summary : RecommendationSummary := ⟨0, 0, false⟩
deriving DecidableEq

/-- The concatenation of the four generator outputs, in source order.
`get_market_context` always returns a non-empty dict, so the Python truthiness
test on `analysis.get("market")` is modelled by the `Option`. -/
def allGeneratedRecommendations (analysis : FullAnalysis) (profile : Profile)
    (include_market : Bool) : List Recommendation :=
  generateGoalRecommendations analysis.goals
    ++ generateAllocationRecommendations analysis.allocation
    ++ (match analysis.market with
        | some mc =>
            if include_market then generateOpportunityRecommendations mc analysis.goals
            else []
        | none => [])
    ++ generateSurplusRecommendations analysis profile

/-- `generate_recommendations`: merge, stable-sort by priority tier, and build
the summary (portfolio/goal display payloads omitted). -/
def generateRecommendations (analysis : FullAnalysis) (profile : Profile)
    (include_market : Bool) : RecommendationBundle :=
  let sorted := sortRecommendations (allGeneratedRecommendations analysis profile
    include_market)
  let high_count := (sorted.filter (fun r => decide (r.priority = "high"))).length
  { success := true
    recommendations := sorted
    summary := { high_priority_count := high_count
                 total_count := sorted.length
                 action_required := decide (0 < high_count) } }

/-! ## General lemmas about the embedded combinators -/

theorem stableInsert_ne_nil (lt : α → α → Bool) (x : α) (l : List α) :
    stableInsert lt x l ≠ [] := by
  cases l with
  | nil => simp [stableInsert]
  | cons y ys =>
      simp only [stableInsert]
      split <;> simp

theorem stableSort_length (lt : α → α → Bool) (l : List α) :
    (stableSort lt l).length = l.length := by
  induction l with
  | nil => rfl
  | cons x xs ih =>
      have hins : ∀ (m : List α), (stableInsert lt x m).length = m.length + 1 := by
        intro m
        induction m with
        | nil => rfl
        | cons y ys ihm =>
            simp only [stableInsert]
            split <;> simp [ihm]
      simp [stableSort, hins, ih]

theorem mem_of_mem_ite_nil {c : Prop} [Decidable c] {l : List α} {a : α}
    (h : a ∈ (if c then l else [])) : c ∧ a ∈ l := by
  by_cases hc : c
  · rw [if_pos hc] at h; exact ⟨hc, h⟩
  · rw [if_neg hc] at h; cases h

/-! ## Claim C10 -/

/-- C10: whenever `rebalance_needed` is true but no category drift reaches +5
while some category drift is at or below −5, `generate_allocation_recommendations`
returns the empty list: neither a rebalance recommendation nor the
within-tolerance informational record is emitted. -/
theorem only_under_allocated_yields_no_recommendation (aa : AllocationAnalysis)
    (hreb : aa.rebalance_needed = true)
    (hover : ∀ cat ∈ CATEGORY_ORDER, getD aa.drift cat 0 < allocation_drift_medium)
    (_hunder : ∃ cat ∈ CATEGORY_ORDER, getD aa.drift cat 0 ≤ -allocation_drift_medium) :
    generateAllocationRecommendations aa = [] := by
  unfold generateAllocationRecommendations
  have hcond : ¬ (¬ aa.rebalance_needed = true) := by simp [hreb]
  rw [if_neg hcond]
  have hOver : (CATEGORY_ORDER.filter fun cat =>
      decide (allocation_drift_medium ≤ getD aa.drift cat 0)) = [] := by
    rw [List.filter_eq_nil_iff]
    intro cat hcat
    simpa using not_le.mpr (hover cat hcat)
  rw [hOver]
  rfl

def aaC10 : AllocationAnalysis :=
  { drift := [("retirement", -7), ("taxable_equities", 2), ("crypto", 3), ("cash", 2)]
    rebalance_needed := true }

/-- Witness for C10 at a concrete reachable drift profile: one category at −7,
the others slightly positive. -/
theorem only_under_allocated_yields_no_recommendation_witness :
    generateAllocationRecommendations aaC10 = [] :=
  only_under_allocated_yields_no_recommendation aaC10
    (of_decide_eq_true (by with_unfolding_all rfl))
    (of_decide_eq_true (by with_unfolding_all rfl))
    (of_decide_eq_true (by with_unfolding_all rfl))

/-! ## Claim C8 -/

/-- C8: `get_unified_portfolio`'s computation returns a failed result exactly
when there are zero snapshots and all three holdings buckets are empty, and in
that case the error is the explicit no-data message; it never returns a
successful zero-valued portfolio for that input. -/
theorem no_data_failure_iff (env : AggregatorEnv) (now : ℚ) (inc : Bool) :
    ((computeUnifiedPortfolio env now inc).success = false ↔
      env.snapshots = [] ∧ env.holdings.crypto = [] ∧
        env.holdings.bank_accounts = [] ∧ env.holdings.other = [])
    ∧ ((computeUnifiedPortfolio env now inc).success = false →
        (computeUnifiedPortfolio env now inc).error = some noDataError) := by
  unfold computeUnifiedPortfolio
  dsimp only
  split
  case isTrue h =>
    push_neg at h
    refine ⟨⟨fun _ => ⟨h.1, ?_⟩, fun _ => rfl⟩, fun _ => rfl⟩
    have h2 := h.2
    push_neg at h2
    tauto
  case isFalse h =>
    constructor
    · constructor
      · intro hfalse; cases hfalse
      · intro ⟨h1, h2, h3, h4⟩
        exact absurd (by tauto) h
    · intro hfalse; cases hfalse

/-- Witness for C8: the fully-empty environment fails with the no-data error. -/
theorem no_data_failure_iff_witness :
    (computeUnifiedPortfolio {} 0 true).success = false
    ∧ (computeUnifiedPortfolio {} 0 true).error = some noDataError := by
  have h := no_data_failure_iff {} 0 true
  have hfail : (computeUnifiedPortfolio {} 0 true).success = false :=
    h.1.mpr ⟨rfl, rfl, rfl, rfl⟩
  exact ⟨hfail, h.2 hfail⟩

/-! ## Claim C6 -/

def allocationSum (a : Allocation) : ℚ :=
  a.retirement + a.taxable_equities + a.crypto + a.cash

/-- C6: for every profile and goal analysis, the percentages of the
recommended allocation returned by `calculate_recommended_allocation` sum to
exactly 100 (each triggered adjustment is internally offsetting, so the
normalization branch leaves the values unchanged). -/
theorem recommended_allocation_sums_to_100 (profile : Profile) (ga : GoalsAnalysis) :
    allocationSum (calculateRecommendedAllocation profile ga).1 = 100 := by
  unfold calculateRecommendedAllocation allocationSum
  rcases hm : ga.short_term.months_remaining with _ | m <;>
    · simp only [hm]
      split_ifs <;>
        norm_num [BASELINE_ALLOCATION, urgent_goal_boost_low, urgent_goal_boost_high] at *

/-! ## Claim C7 -/

/-- C7: `categorize_symbol` maps every crypto-ETF symbol (case-insensitively)
to the crypto category regardless of the containing account type, and every
asset the aggregator emits from a snapshot holding carrying a symbol (exactly
the crypto-ETF holdings) has category crypto, never the account's own
category. -/
theorem crypto_etf_always_crypto :
    (∀ sym acct : String, sym.toUpper ∈ CRYPTO_ETF_SYMBOLS →
        categorizeSymbol sym acct = "crypto")
    ∧ (∀ snaps holds prices (a : Asset), a ∈ buildAssetList snaps holds prices →
        ∀ sym, a.symbol = some sym →
          a.category = "crypto" ∧ sym.toUpper ∈ CRYPTO_ETF_SYMBOLS) := by
  constructor
  · intro sym acct h
    unfold categorizeSymbol
    rw [if_pos h]
  · intro snaps holds prices a ha sym hsym
    unfold buildAssetList sortAssetsDesc at ha
    rw [mem_stableSort] at ha
    simp only [List.mem_append] at ha
    rcases ha with ((hsnap | hcrypto) | hbank) | hother
    · rw [List.mem_flatMap] at hsnap
      obtain ⟨p, _, hmem⟩ := hsnap
      unfold snapshotAssets at hmem
      simp only [List.mem_append] at hmem
      rcases hmem with (hsec | hetf) | hfdic
      · obtain ⟨-, hsec⟩ := mem_of_mem_ite_nil hsec
        rw [List.mem_singleton] at hsec
        subst hsec
        cases hsym
      · obtain ⟨-, hetf⟩ := mem_of_mem_ite_nil hetf
        rw [List.mem_map] at hetf
        obtain ⟨h, hh, rfl⟩ := hetf
        refine ⟨rfl, ?_⟩
        have : some h.symbol = some sym := hsym
        obtain rfl : h.symbol = sym := by injection this
        unfold etfHoldings at hh
        rw [List.mem_filter] at hh
        have := hh.2
        unfold isEtf at this
        simpa using this
      · obtain ⟨-, hfdic⟩ := mem_of_mem_ite_nil hfdic
        rw [List.mem_singleton] at hfdic
        subst hfdic
        cases hsym
    · unfold cryptoHoldingAssets at hcrypto
      rw [List.mem_flatMap] at hcrypto
      obtain ⟨p, -, hmem⟩ := hcrypto
      rcases hpr : get? prices p.1 with - | price
      · rw [hpr] at hmem; cases hmem
      · rw [hpr] at hmem
        obtain ⟨-, hmem⟩ := mem_of_mem_ite_nil hmem
        rw [List.mem_singleton] at hmem
        subst hmem
        cases hsym
    · unfold bankAssets at hbank
      rw [List.mem_flatMap] at hbank
      obtain ⟨p, -, hmem⟩ := hbank
      obtain ⟨-, hmem⟩ := mem_of_mem_ite_nil hmem
      rw [List.mem_singleton] at hmem
      subst hmem
      cases hsym
    · unfold otherAssets at hother
      rw [List.mem_flatMap] at hother
      obtain ⟨p, -, hmem⟩ := hother
      obtain ⟨-, hmem⟩ := mem_of_mem_ite_nil hmem
      rw [List.mem_singleton] at hmem
      subst hmem
      cases hsym

def snapsC7 : List (String × Snapshot) :=
  [("brokerage",
    { statement_date := none
      portfolio :=
        { holdings := [⟨"QQQ", 100, none, none⟩, ⟨"BITO", 50, none, none⟩]
          fdic_deposits := 0 } })]

def assetC7 : Asset :=
  { name := "BITO (Taxable Brokerage (Index))", category := "crypto", value := 50,
    source := "snapshot", symbol := some "BITO" }

/-- Witness for C7: a lowercase crypto-ETF symbol in a taxable brokerage
account, and the concrete BITO asset emitted from a brokerage snapshot. -/
theorem crypto_etf_always_crypto_witness :
    categorizeSymbol "bito" "brokerage" = "crypto"
    ∧ assetC7.category = "crypto" ∧ "BITO".toUpper ∈ CRYPTO_ETF_SYMBOLS :=
  ⟨crypto_etf_always_crypto.1 "bito" "brokerage"
      (of_decide_eq_true (by with_unfolding_all rfl)),
   crypto_etf_always_crypto.2 snapsC7 {} [] assetC7
      (of_decide_eq_true (by with_unfolding_all rfl)) "BITO" rfl⟩

/-! ## Claim C5 -/

/-- C5 counterexample: with the equities 7-day change unavailable and the
30-day change at −12%, the claim demands a high-priority correction
opportunity, but `detect_opportunities` emits nothing — the entire S&P 500
block is guarded by the availability of the 7-day change. -/
theorem sp500_correction_requires_7d_ce :
    detectOpportunities {} { change_7d := none, change_30d := some (-12) } = [] := by
  with_unfolding_all rfl

/-- C5 (amended): equities opportunities are emitted into the combined
opportunity list; the equities rules run only when the 7-day change is
available (nothing is emitted without it), and given an available 7-day
change, a 30-day change ≤ −10 emits the high-priority correction opportunity
(checked before the 7-day rule), else a 7-day change ≤ −5 emits the
medium-priority pullback. -/
theorem equities_opportunity_rules (cd : CryptoMarketData) (sp : Sp500Data) :
    (∀ o ∈ sp500Opportunities sp, o ∈ detectOpportunities cd sp)
    ∧ (sp.change_7d = none → sp500Opportunities sp = [])
    ∧ (∀ c7, sp.change_7d = some c7 →
        (∀ c30, sp.change_30d = some c30 → c30 ≤ sp500_correction →
          sp500Opportunities sp
            = [{ asset := "S&P 500", signal := "30d_drop", magnitude := pyRound c30 1,
                 priority := "high",
                 suggestion := "Correction territory - consider adding to index positions" }])
        ∧ ((sp.change_30d = none ∨
              ∀ c30, sp.change_30d = some c30 → sp500_correction < c30) →
            c7 ≤ sp500_pullback →
            sp500Opportunities sp
              = [{ asset := "S&P 500", signal := "7d_drop", magnitude := pyRound c7 1,
                   priority := "medium",
                   suggestion := "Market pullback - consider adding to positions" }])) := by
  refine ⟨?_, ?_, ?_⟩
  · intro o ho
    unfold detectOpportunities
    simp only [List.mem_append]
    exact Or.inr ho
  · intro h
    unfold sp500Opportunities
    rw [h]
  · intro c7 h7
    constructor
    · intro c30 h30 hle
      unfold sp500Opportunities
      rw [h7, h30]
      simp only [if_pos hle]
    · intro h30or hc7
      rcases h30 : sp.change_30d with - | c30
      · rcases h30or with h30n | h30all
        · unfold sp500Opportunities
          rw [h7, h30]
          simp only [if_pos hc7]
        · unfold sp500Opportunities
          rw [h7, h30]
          simp only [if_pos hc7]
      · have hgt : sp500_correction < c30 := by
          rcases h30or with h30n | h30all
          · rw [h30n] at h30; cases h30
          · exact h30all c30 h30
        unfold sp500Opportunities
        rw [h7, h30]
        simp only [if_neg (not_le.mpr hgt), if_pos hc7]

def spC5 : Sp500Data := { change_7d := some (-6), change_30d := some (-12) }

/-- Witness for C5 at a concrete input: 7-day change −6, 30-day change −12
yields exactly the high-priority correction opportunity. -/
theorem equities_opportunity_rules_witness :
    sp500Opportunities spC5
      = [{ asset := "S&P 500", signal := "30d_drop", magnitude := pyRound (-12) 1,
           priority := "high",
           suggestion := "Correction territory - consider adding to index positions" }] :=
  ((equities_opportunity_rules {} spC5).2.2 (-6) rfl).1 (-12) rfl
    (of_decide_eq_true (by with_unfolding_all rfl))

/-! ## Claim C4 -/

def sumPcts (summary : List (String × CategorySummary)) : ℚ :=
  (summary.map (fun p => p.2.pct)).sum

theorem sum_map_add (l : List α) (f g : α → ℚ) :
    (l.map fun x => f x + g x).sum = (l.map f).sum + (l.map g).sum := by
  induction l with
  | nil => simp
  | cons x xs ih => simp [ih]; ring

theorem sum_ite_zero (l : List String) (c : String) (v : ℚ) (h : c ∉ l) :
    (l.map (fun cat => if c = cat then v else 0)).sum = 0 := by
  induction l with
  | nil => simp
  | cons a as ih =>
      simp only [List.mem_cons, not_or] at h
      simp [if_neg h.1, ih h.2]

theorem sum_ite_single (L : List String) (hnd : L.Nodup) (c : String) (v : ℚ)
    (hc : c ∈ L) : (L.map (fun cat => if c = cat then v else 0)).sum = v := by
  induction L with
  | nil => cases hc
  | cons a as ih =>
      rcases List.nodup_cons.mp hnd with ⟨hna, hnd'⟩
      by_cases hca : c = a
      · subst hca
        simp [sum_ite_zero as c v hna]
      · rcases List.mem_cons.mp hc with h | h
        · exact absurd h hca
        · simp [if_neg hca, ih hnd' h]

theorem categoryValue_cons (a : Asset) (l : List Asset) (cat : String) :
    categoryValue (a :: l) cat
      = (if a.category = cat then a.value else 0) + categoryValue l cat := by
  unfold categoryValue categoryAssets
  by_cases h : a.category = cat
  · simp [List.filter_cons, h]
  · simp [List.filter_cons, h]

theorem sum_categoryValue (assets : List Asset)
    (hcat : ∀ a ∈ assets, a.category ∈ CATEGORY_ORDER) :
    (CATEGORY_ORDER.map (fun cat => categoryValue assets cat)).sum
      = (assets.map (·.value)).sum := by
  induction assets with
  | nil => simp [categoryValue, categoryAssets]
  | cons a rest ih =>
      have hmem : a.category ∈ CATEGORY_ORDER := hcat a (List.mem_cons_self a rest)
      have hrest : ∀ x ∈ rest, x.category ∈ CATEGORY_ORDER :=
        fun x hx => hcat x (List.mem_cons_of_mem a hx)
      have hnd : CATEGORY_ORDER.Nodup := by decide
      calc (CATEGORY_ORDER.map (fun cat => categoryValue (a :: rest) cat)).sum
          = (CATEGORY_ORDER.map (fun cat =>
              (if a.category = cat then a.value else 0) + categoryValue rest cat)).sum := by
            simp only [categoryValue_cons]
        _ = (CATEGORY_ORDER.map (fun cat => if a.category = cat then a.value else 0)).sum
              + (CATEGORY_ORDER.map (fun cat => categoryValue rest cat)).sum :=
            sum_map_add _ _ _
        _ = a.value + (rest.map (·.value)).sum := by
            rw [sum_ite_single CATEGORY_ORDER hnd a.category a.value hmem, ih hrest]
        _ = ((a :: rest).map (·.value)).sum := by simp

def envC4 : AggregatorEnv :=
  { snapshots :=
      [("roth_ira",
        { statement_date := none
          portfolio := { holdings := [⟨"VTI", 97, none, none⟩], fdic_deposits := 101 } }),
       ("brokerage",
        { statement_date := none
          portfolio :=
            { holdings := [⟨"QQQ", 101, none, none⟩, ⟨"BITO", 101, none, none⟩]
              fdic_deposits := 0 } })] }

/-- C4 counterexample: a reachable portfolio (values 97/101/101/101 across the
four categories, total 400) whose category shares are 24.25/25.25/25.25/25.25;
each share rounds half-to-even down to one decimal, so the pcts sum to 99.8 —
outside the claimed ±0.1 tolerance. -/
theorem pct_sum_tolerance_ce :
    (computeUnifiedPortfolio envC4 0 false).success = true
    ∧ 0 < (computeUnifiedPortfolio envC4 0 false).total_value
    ∧ ¬ (|sumPcts (computeUnifiedPortfolio envC4 0 false).by_category - 100| ≤ 1/10) :=
  of_decide_eq_true (by with_unfolding_all rfl)

/-- C4 (amended): whenever every asset is in one of the four fixed categories
and the total is their (positive) value sum, the category percentages built by
`build_category_summary` sum to within 0.2 of 100 (four one-decimal
half-to-even roundings, each off by at most 0.05). -/
theorem pct_sum_within_tolerance (assets : List Asset) (total : ℚ)
    (hcat : ∀ a ∈ assets, a.category ∈ CATEGORY_ORDER)
    (htot : total = (assets.map (·.value)).sum)
    (hpos : 0 < total) :
    |sumPcts (buildCategorySummary assets total) - 100| ≤ 1/5 := by
  have hsum : (CATEGORY_ORDER.map (fun cat => categoryValue assets cat)).sum = total := by
    rw [htot]; exact sum_categoryValue assets hcat
  have hne : total ≠ 0 := ne_of_gt hpos
  unfold sumPcts buildCategorySummary
  simp only [CATEGORY_ORDER, List.map_cons, List.map_nil, List.sum_cons,
    List.sum_nil] at hsum ⊢
  simp only [if_pos hpos]
  have esum : categoryValue assets "retirement" / total * 100
      + categoryValue assets "taxable_equities" / total * 100
      + categoryValue assets "crypto" / total * 100
      + categoryValue assets "cash" / total * 100 = 100 := by
    field_simp
    linarith [hsum]
  have h1 := pyRound_err (categoryValue assets "retirement" / total * 100) 1
  have h2 := pyRound_err (categoryValue assets "taxable_equities" / total * 100) 1
  have h3 := pyRound_err (categoryValue assets "crypto" / total * 100) 1
  have h4 := pyRound_err (categoryValue assets "cash" / total * 100) 1
  norm_num at h1 h2 h3 h4
  rw [abs_le] at h1 h2 h3 h4 ⊢
  constructor <;> linarith

def assetsC4w : List Asset :=
  [{ name := "A", category := "retirement", value := 97, source := "snapshot" },
   { name := "B", category := "taxable_equities", value := 101, source := "snapshot" },
   { name := "C", category := "crypto", value := 101, source := "snapshot" },
   { name := "D", category := "cash", value := 101, source := "snapshot" }]

/-- Witness for the amended C4 bound at the counterexample portfolio: the sum
lands at 99.8, within 0.2 of 100. -/
theorem pct_sum_within_tolerance_witness :
    |sumPcts (buildCategorySummary assetsC4w 400) - 100| ≤ 1/5 :=
  pct_sum_within_tolerance assetsC4w 400
    (of_decide_eq_true (by with_unfolding_all rfl))
    (of_decide_eq_true (by with_unfolding_all rfl))
    (of_decide_eq_true (by with_unfolding_all rfl))

/-! ## Claim C2 -/

def gdC2ce : GoalInput :=
  { description := some "House", target := some 100, deadline := some "2026-05" }

/-- On the paced branch (non-empty description, positive target, non-empty
parseable deadline, incomplete goal, positive months remaining),
`analyze_single_goal` produces exactly this record. -/
theorem analyzeSingleGoal_paced (goal_type : String) (gd : GoalInput)
    (portfolio : PortfolioResult) (profile : Profile) (monthsOf : String → Option ℤ)
    (d : String) (hd : gd.description = some d) (hdne : d ≠ "")
    (t : ℚ) (ht : gd.target = some t) (htpos : 0 < t)
    (dl : String) (hdl : gd.deadline = some dl) (hdlne : dl ≠ "")
    (m : ℤ) (hm : monthsOf dl = some m) (hmpos : 0 < m)
    (hlt : getGoalCurrentValue goal_type portfolio < t) :
    analyzeSingleGoal goal_type gd portfolio profile monthsOf =
      { description := gd.description
        target := gd.target
        deadline := gd.deadline
        current := some (getGoalCurrentValue goal_type portfolio)
        progress_pct :=
          some (pyRound (getGoalCurrentValue goal_type portfolio / t * 100) 1)
        current_monthly := some (getCurrentMonthlyAllocation goal_type profile)
        months_remaining := some m
        monthly_required :=
          some (pyRound ((t - getGoalCurrentValue goal_type portfolio) / (m : ℚ)) 2)
        months_at_current_pace :=
          if 0 < getCurrentMonthlyAllocation goal_type profile
          then some (pyRound ((t - getGoalCurrentValue goal_type portfolio)
              / getCurrentMonthlyAllocation goal_type profile) 1)
          else none
        on_track :=
          some (if getCurrentMonthlyAllocation goal_type profile ≠ 0
                then decide ((t - getGoalCurrentValue goal_type portfolio) / (m : ℚ)
                    ≤ getCurrentMonthlyAllocation goal_type profile)
                else false)
        status :=
          if (if getCurrentMonthlyAllocation goal_type profile ≠ 0
              then decide ((t - getGoalCurrentValue goal_type portfolio) / (m : ℚ)
                  ≤ getCurrentMonthlyAllocation goal_type profile)
              else false)
          then "on_track" else "behind" } := by
  have hcur : 0 < t - getGoalCurrentValue goal_type portfolio := by linarith
  unfold analyzeSingleGoal
  rw [if_neg (by simp [hd, hdne]), ht]
  dsimp only
  rw [if_neg (not_le.mpr htpos), hdl]
  dsimp only
  rw [if_neg hdlne, hm]
  dsimp only
  rw [if_neg (not_le.mpr hcur), if_neg (not_le.mpr hmpos)]

/-- C2 counterexample: with target 100, current 0 and 3 months remaining, the
analysis stores `monthly_required` as 33.33 — the quotient rounded to two
decimals — not the exact quotient 100/3 the claim states. -/
theorem monthly_required_rounded_ce :
    (analyzeSingleGoal "medium_term" gdC2ce { success := true } {}
        (fun _ => some 3)).monthly_required ≠ some ((100 : ℚ) / 3)
    ∧ (analyzeSingleGoal "medium_term" gdC2ce { success := true } {}
        (fun _ => some 3)).monthly_required = some ((3333 : ℚ) / 100) := by
  have h := analyzeSingleGoal_paced "medium_term" gdC2ce { success := true } {}
    (fun _ => some 3) "House" rfl (by decide) 100 rfl
    (of_decide_eq_true (by with_unfolding_all rfl)) "2026-05" rfl (by decide)
    3 rfl (by decide) (of_decide_eq_true (by with_unfolding_all rfl))
  rw [h]
  have harg : (100 - getGoalCurrentValue "medium_term" { success := true }) / ((3:ℤ):ℚ)
      = (100 : ℚ) / 3 := by
    unfold getGoalCurrentValue
    rw [if_neg (by decide : ¬ ("medium_term" : String) = "short_term")]
    push_cast
    norm_num
  dsimp only
  rw [harg]
  constructor
  · have : pyRound ((100:ℚ)/3) 2 = (3333 : ℚ) / 100 := by with_unfolding_all rfl
    rw [this]
    intro hcontr
    have := Option.some.inj hcontr
    norm_num at this
  · have : pyRound ((100:ℚ)/3) 2 = (3333 : ℚ) / 100 := by with_unfolding_all rfl
    rw [this]

/-- C2 (amended): for every goal with a non-empty description, a positive
target, a non-empty parseable deadline, current value below target, and
positive months remaining, `analyze_single_goal` stores `monthly_required` as
(target − current) / months_remaining rounded half-to-even to two decimals,
compares the pace against the unrounded quotient, and sets status `on_track`
exactly when current_monthly ≥ that quotient, else `behind` (with `on_track`
false). -/
theorem goal_pace_status_spec (goal_type : String) (gd : GoalInput)
    (portfolio : PortfolioResult) (profile : Profile) (monthsOf : String → Option ℤ)
    (d : String) (hd : gd.description = some d) (hdne : d ≠ "")
    (t : ℚ) (ht : gd.target = some t) (htpos : 0 < t)
    (dl : String) (hdl : gd.deadline = some dl) (hdlne : dl ≠ "")
    (m : ℤ) (hm : monthsOf dl = some m) (hmpos : 0 < m)
    (hlt : getGoalCurrentValue goal_type portfolio < t) :
    (analyzeSingleGoal goal_type gd portfolio profile monthsOf).monthly_required
      = some (pyRound ((t - getGoalCurrentValue goal_type portfolio) / (m : ℚ)) 2)
    ∧ ((analyzeSingleGoal goal_type gd portfolio profile monthsOf).status = "on_track"
        ↔ (t - getGoalCurrentValue goal_type portfolio) / (m : ℚ)
            ≤ getCurrentMonthlyAllocation goal_type profile)
    ∧ ((analyzeSingleGoal goal_type gd portfolio profile monthsOf).status = "behind"
        ↔ ¬ (t - getGoalCurrentValue goal_type portfolio) / (m : ℚ)
            ≤ getCurrentMonthlyAllocation goal_type profile)
    ∧ (analyzeSingleGoal goal_type gd portfolio profile monthsOf).on_track
        = some (decide ((t - getGoalCurrentValue goal_type portfolio) / (m : ℚ)
            ≤ getCurrentMonthlyAllocation goal_type profile)) := by
  have hmq : (0 : ℚ) < (m : ℚ) := by exact_mod_cast hmpos
  have hmrpos : 0 < (t - getGoalCurrentValue goal_type portfolio) / (m : ℚ) :=
    div_pos (by linarith) hmq
  rw [analyzeSingleGoal_paced goal_type gd portfolio profile monthsOf d hd hdne t ht
    htpos dl hdl hdlne m hm hmpos hlt]
  by_cases hcm : getCurrentMonthlyAllocation goal_type profile = 0
  · have hnle : ¬ ((t - getGoalCurrentValue goal_type portfolio) / (m : ℚ)
        ≤ getCurrentMonthlyAllocation goal_type profile) := by
      rw [hcm]; exact not_le.mpr hmrpos
    rw [if_neg (not_not_intro hcm)]
    dsimp only
    exact ⟨rfl, iff_of_false (by decide) hnle, iff_of_true rfl hnle,
      by rw [decide_eq_false hnle]⟩
  · rw [if_pos hcm]
    by_cases hle : (t - getGoalCurrentValue goal_type portfolio) / (m : ℚ)
        ≤ getCurrentMonthlyAllocation goal_type profile
    · rw [decide_eq_true hle]
      dsimp only
      exact ⟨rfl, iff_of_true rfl hle, iff_of_false (by decide) (fun h => h hle), rfl⟩
    · rw [decide_eq_false hle]
      dsimp only
      exact ⟨rfl, iff_of_false (by decide) hle, iff_of_true rfl hle, rfl⟩

def gdC2w : GoalInput :=
  { description := some "Runway", target := some 12000, deadline := some "2026-12" }

def portC2w : PortfolioResult := { success := true, total_value := 6000 }

def profC2w : Profile := { monthly_cash_flow := { gross_income := some 800 } }

/-- Witness for C2 at the claim's own numbers: target 12000, current 6000, 6
months remaining gives monthly_required 1000; with current pace 800 the goal
is behind and not on track. -/
theorem goal_pace_status_spec_witness :
    (analyzeSingleGoal "medium_term" gdC2w portC2w profC2w
        (fun _ => some 6)).monthly_required = some 1000
    ∧ (analyzeSingleGoal "medium_term" gdC2w portC2w profC2w
        (fun _ => some 6)).status = "behind"
    ∧ (analyzeSingleGoal "medium_term" gdC2w portC2w profC2w
        (fun _ => some 6)).on_track = some false := by
  have h := goal_pace_status_spec "medium_term" gdC2w portC2w profC2w (fun _ => some 6)
    "Runway" rfl (of_decide_eq_true (by with_unfolding_all rfl))
    12000 rfl (of_decide_eq_true (by with_unfolding_all rfl))
    "2026-12" rfl (of_decide_eq_true (by with_unfolding_all rfl))
    6 rfl (of_decide_eq_true (by with_unfolding_all rfl))
    (of_decide_eq_true (by with_unfolding_all rfl))
  refine ⟨h.1.trans (by with_unfolding_all rfl), h.2.2.1.mpr ?_, h.2.2.2.trans ?_⟩
  · exact of_decide_eq_true (by with_unfolding_all rfl)
  · with_unfolding_all rfl

/-! ## Claim C9 -/

theorem stableInsert_front (lt : α → α → Bool) (x : α) (l : List α)
    (h : ∀ y ∈ l, lt y x = false) : stableInsert lt x l = x :: l := by
  cases l with
  | nil => rfl
  | cons y ys =>
      simp only [stableInsert]
      rw [h y (List.mem_cons_self y ys)]
      simp

theorem stableInsert_append (lt : α → α → Bool) (x : α) (A B : List α)
    (hA : ∀ y ∈ A, lt y x = true) :
    stableInsert lt x (A ++ B) = A ++ stableInsert lt x B := by
  induction A with
  | nil => rfl
  | cons a as ih =>
      simp only [List.cons_append, stableInsert]
      rw [hA a (List.mem_cons_self a as)]
      simp only [if_true]
      exact congrArg (List.cons a) (ih (fun y hy => hA y (List.mem_cons_of_mem a hy)))

/-- The stable sort by priority groups the list into the high, medium and low
tiers, preserving the original relative order inside each tier. -/
theorem sortRecommendations_tiers (recs : List Recommendation)
    (h : ∀ r ∈ recs, r.priority = "high" ∨ r.priority = "medium" ∨ r.priority = "low") :
    sortRecommendations recs
      = recs.filter (fun r => decide (r.priority = "high"))
        ++ recs.filter (fun r => decide (r.priority = "medium"))
        ++ recs.filter (fun r => decide (r.priority = "low")) := by
  induction recs with
  | nil => rfl
  | cons r rest ih =>
      have hrest : ∀ x ∈ rest, x.priority = "high" ∨ x.priority = "medium"
          ∨ x.priority = "low" := fun x hx => h x (List.mem_cons_of_mem r hx)
      have step : sortRecommendations (r :: rest)
          = stableInsert (fun y x => decide (priorityOrder y.priority
              < priorityOrder x.priority)) r (sortRecommendations rest) := rfl
      rw [step, ih hrest]
      have hmemF : ∀ (p : String) (y : Recommendation),
          y ∈ rest.filter (fun q => decide (q.priority = p)) → y.priority = p := by
        intro p y hy
        exact of_decide_eq_true (List.mem_filter.mp hy).2
      rcases h r (List.mem_cons_self r rest) with hp | hp | hp
      · rw [stableInsert_front]
        · simp [List.filter_cons, hp]
        · intro y _
          rw [hp]
          simp [priorityOrder]
      · rw [List.append_assoc]
        rw [stableInsert_append _ _ _ _ (fun y hy => by
            rw [hmemF "high" y hy, hp]; simp [priorityOrder])]
        rw [stableInsert_front _ _ _ (fun y hy => by
          rw [hp]
          rcases List.mem_append.mp hy with hmem | hmem
          · rw [hmemF "medium" y hmem]; simp [priorityOrder]
          · rw [hmemF "low" y hmem]; simp [priorityOrder])]
        simp [List.filter_cons, hp, List.append_assoc]
      · rw [stableInsert_append _ _ _ _ (fun y hy => by
            rw [hp]
            rcases List.mem_append.mp hy with hmem | hmem
            · rw [hmemF "high" y hmem]; simp [priorityOrder]
            · rw [hmemF "medium" y hmem]; simp [priorityOrder])]
        rw [stableInsert_front _ _ _ (fun y hy => by
          rw [hmemF "low" y hy, hp]; simp [priorityOrder])]
        simp [List.filter_cons, hp, List.append_assoc]

/-- C9: whenever the four generator sources emit only valid priorities,
`generate_recommendations` returns the concatenated recommendations
stable-sorted into the high, medium, low tiers (original relative order
preserved within each tier), with `high_priority_count` the number of
high-priority recommendations, `total_count` the length of the final list, and
`action_required` exactly when some high-priority recommendation exists. -/
theorem recommendations_sorted_summary (analysis : FullAnalysis) (profile : Profile)
    (include_market : Bool)
    (h : ∀ r ∈ allGeneratedRecommendations analysis profile include_market,
        r.priority = "high" ∨ r.priority = "medium" ∨ r.priority = "low") :
    (generateRecommendations analysis profile include_market).recommendations
      = (allGeneratedRecommendations analysis profile include_market).filter
          (fun r => decide (r.priority = "high"))
        ++ (allGeneratedRecommendations analysis profile include_market).filter
            (fun r => decide (r.priority = "medium"))
        ++ (allGeneratedRecommendations analysis profile include_market).filter
            (fun r => decide (r.priority = "low"))
    ∧ (generateRecommendations analysis profile include_market).summary.high_priority_count
        = ((allGeneratedRecommendations analysis profile include_market).filter
            (fun r => decide (r.priority = "high"))).length
    ∧ (generateRecommendations analysis profile include_market).summary.total_count
        = (allGeneratedRecommendations analysis profile include_market).length
    ∧ ((generateRecommendations analysis profile include_market).summary.action_required
          = true
        ↔ 0 < (generateRecommendations analysis profile
            include_market).summary.high_priority_count) := by
  have htiers := sortRecommendations_tiers _ h
  have hempty : ∀ p q : String, p ≠ q →
      ((allGeneratedRecommendations analysis profile include_market).filter
          (fun r => decide (r.priority = p))).filter
        (fun r => decide (r.priority = q)) = [] := by
    intro p q hpq
    rw [List.filter_eq_nil_iff]
    intro a ha
    have hap : a.priority = p := of_decide_eq_true (List.mem_filter.mp ha).2
    simp [hap, hpq]
  have hself : ((allGeneratedRecommendations analysis profile include_market).filter
      (fun r => decide (r.priority = "high"))).filter
        (fun r => decide (r.priority = "high"))
      = (allGeneratedRecommendations analysis profile include_market).filter
          (fun r => decide (r.priority = "high")) := by
    apply List.filter_eq_self.mpr
    intro a ha
    exact (List.mem_filter.mp ha).2
  refine ⟨?_, ?_, ?_, ?_⟩
  · exact htiers
  · show ((sortRecommendations _).filter (fun r => decide (r.priority = "high"))).length = _
    rw [htiers]
    rw [List.filter_append, List.filter_append]
    rw [hself, hempty "medium" "high" (by decide), hempty "low" "high" (by decide)]
    simp
  · show (sortRecommendations (allGeneratedRecommendations analysis profile
      include_market)).length = _
    unfold sortRecommendations
    rw [stableSort_length]
  · exact decide_eq_true_iff

/-- Witness for C9 at a concrete input (empty analysis and profile: one
low-priority informational rebalance record and one high-priority cash-flow
warning, generated in that order, end up high first). -/
theorem recommendations_sorted_summary_witness :
    (generateRecommendations {} {} false).recommendations
      = (allGeneratedRecommendations {} {} false).filter
          (fun r => decide (r.priority = "high"))
        ++ (allGeneratedRecommendations {} {} false).filter
            (fun r => decide (r.priority = "medium"))
        ++ (allGeneratedRecommendations {} {} false).filter
            (fun r => decide (r.priority = "low")) :=
  (recommendations_sorted_summary {} {} false
    (of_decide_eq_true (by with_unfolding_all rfl))).1

/-! ## Claim C3 -/

def envC3 : AggregatorEnv :=
  { snapshots := [("roth_ira",
      { statement_date := none
        portfolio := { holdings := [⟨"VTI", 100, none, none⟩], fdic_deposits := 0 } })] }

def stC3a : CacheState := (getUnifiedPortfolio envC3 100 true {}).2.1

def stC3b : CacheState := (getUnifiedPortfolio envC3 120 false stC3a).2.1

/-- C3 counterexample: the "True" key is written at time 100; after a write
under the other key at time 120, a call for "True" at time 135 — more than 30
seconds after that key's own write — still returns the stale cached entry
without recomputation, because the TTL is measured from a single shared
timestamp, not per key. -/
theorem cache_ttl_per_key_ce :
    stC3a.time = 100
    ∧ (30 : ℚ) < 135 - 100
    ∧ (getUnifiedPortfolio envC3 135 true stC3b).2.2 = false
    ∧ (getUnifiedPortfolio envC3 135 true stC3b).1
        = computeUnifiedPortfolio envC3 100 true :=
  of_decide_eq_true (by with_unfolding_all rfl)

/-- C3 (amended): the result cache stores one entry per cache key but keeps a
single shared timestamp refreshed on every write; a call issued when the
shared timestamp is at least 30 seconds old always triggers a fresh
computation, and a call within 30 seconds of the most recent write (under any
key) whose own key is cached returns the stored result with no
recomputation. -/
theorem cache_shared_ttl_spec (env : AggregatorEnv) (now : ℚ) (inc : Bool)
    (st : CacheState) :
    (PORTFOLIO_CACHE_TTL ≤ now - st.time →
      (getUnifiedPortfolio env now inc st).2.2 = true)
    ∧ (∀ c, now - st.time < PORTFOLIO_CACHE_TTL →
        get? st.cache (if inc then "True" else "False") = some c →
        (getUnifiedPortfolio env now inc st).1 = c
        ∧ (getUnifiedPortfolio env now inc st).2.2 = false) := by
  constructor
  · intro hage
    unfold getUnifiedPortfolio
    dsimp only
    rw [if_neg (not_lt.mpr hage)]
    split
    · rename_i cached heq
      cases heq
    · split <;> rfl
  · intro c hage hcache
    unfold getUnifiedPortfolio
    dsimp only
    rw [if_pos hage, hcache]
    exact ⟨rfl, rfl⟩

def resC3 : PortfolioResult := computeUnifiedPortfolio envC3 100 true

/-- Witness for C3 (amended) at the concrete trace: the first call (shared
timestamp 0, age 100) recomputes; a call at time 110 under the cached "True"
key (age 10) returns the stored result without recomputation. -/
theorem cache_shared_ttl_spec_witness :
    (getUnifiedPortfolio envC3 100 true {}).2.2 = true
    ∧ (getUnifiedPortfolio envC3 110 true stC3a).1 = resC3
    ∧ (getUnifiedPortfolio envC3 110 true stC3a).2.2 = false := by
  have h1 := (cache_shared_ttl_spec envC3 100 true {}).1
    (of_decide_eq_true (by with_unfolding_all rfl))
  have h2 := (cache_shared_ttl_spec envC3 110 true stC3a).2 resC3
    (of_decide_eq_true (by with_unfolding_all rfl))
    (of_decide_eq_true (by with_unfolding_all rfl))
  exact ⟨h1, h2.1, h2.2⟩

/-! ## Claim C1 -/

/-- The monthly shortfall of the most-urgent goal (0 when none is marked). -/
def urgentShortfall (goals : GoalsAnalysis) : ℚ :=
  match goals.summary.most_urgent with
  | some mu => (goalsGet goals mu).monthly_required.getD 0
      - (goalsGet goals mu).current_monthly.getD 0
  | none => 0

/-- The Roth IRA monthly headroom: annual limit / 12 minus the current
monthly contribution. -/
def rothHeadroom (cf : MonthlyCashFlow) : ℚ :=
  roth_ira_annual_limit / 12 - cf.roth_contributions.getD 0

theorem waterfallStep1_spec (goals : GoalsAnalysis) (r : ℚ) (l : List SurplusAlloc)
    (hr : 0 ≤ r) :
    ∃ t r1, waterfallStep1 goals (r, l) = (r1, l ++ t)
      ∧ 0 ≤ r1 ∧ r1 ≤ r
      ∧ r - r1 ≤ max 0 (urgentShortfall goals)
      ∧ ∀ a ∈ t, a.reason = "urgent_goal" ∧ a.priority = 1 := by
  unfold waterfallStep1 urgentShortfall
  rcases hmu : goals.summary.most_urgent with - | mu <;> simp only [hmu]
  · exact ⟨[], r, by simp, hr, le_refl r, by simp, by simp⟩
  · split_ifs with h1 h2 h3
    · refine ⟨[_], r - min (max 0 ((goalsGet goals mu).monthly_required.getD 0
          - (goalsGet goals mu).current_monthly.getD 0)) r, rfl, ?_, ?_, ?_, ?_⟩
      · have := min_le_right (max 0 ((goalsGet goals mu).monthly_required.getD 0
          - (goalsGet goals mu).current_monthly.getD 0)) r
        linarith
      · linarith [le_of_lt h3]
      · have := min_le_left (max 0 ((goalsGet goals mu).monthly_required.getD 0
          - (goalsGet goals mu).current_monthly.getD 0)) r
        have hmx : max 0 ((goalsGet goals mu).monthly_required.getD 0
            - (goalsGet goals mu).current_monthly.getD 0)
            ≤ max 0 ((goalsGet goals mu).monthly_required.getD 0
            - (goalsGet goals mu).current_monthly.getD 0) := le_refl _
        linarith
      · intro a ha
        rw [List.mem_singleton] at ha
        subst ha
        exact ⟨rfl, rfl⟩
    · exact ⟨[], r, by simp, hr, le_refl r, by simp [le_max_left], by simp⟩
    · exact ⟨[], r, by simp, hr, le_refl r, by simp [le_max_left], by simp⟩
    · exact ⟨[], r, by simp, hr, le_refl r, by simp [le_max_left], by simp⟩

theorem waterfallStep2_spec (tax : TaxSituation) (cf : MonthlyCashFlow) (r : ℚ)
    (l : List SurplusAlloc) (hr : 0 ≤ r) :
    ∃ t r2, waterfallStep2 tax cf (r, l) = (r2, l ++ t)
      ∧ 0 ≤ r2 ∧ r2 ≤ r
      ∧ r - r2 ≤ max 0 (rothHeadroom cf)
      ∧ ∀ a ∈ t, a.reason = "tax_advantaged" ∧ a.priority = 2 := by
  unfold waterfallStep2 rothHeadroom
  dsimp only
  split_ifs with h1 h2 h3
  · refine ⟨[_], r - min (roth_ira_annual_limit / 12 - cf.roth_contributions.getD 0) r,
      rfl, ?_, ?_, ?_, ?_⟩
    · have := min_le_right (roth_ira_annual_limit / 12 - cf.roth_contributions.getD 0) r
      linarith
    · have hmin : 0 ≤ min (roth_ira_annual_limit / 12 - cf.roth_contributions.getD 0) r := by
        have h50 : (50:ℚ) ≤ min (roth_ira_annual_limit / 12 - cf.roth_contributions.getD 0) r := h3
        linarith
      linarith
    · have := min_le_left (roth_ira_annual_limit / 12 - cf.roth_contributions.getD 0) r
      have := le_max_right (0:ℚ) (roth_ira_annual_limit / 12 - cf.roth_contributions.getD 0)
      linarith
    · intro a ha
      rw [List.mem_singleton] at ha
      subst ha
      exact ⟨rfl, rfl⟩
  · exact ⟨[], r, by simp, hr, le_refl r, by simp [le_max_left], by simp⟩
  · exact ⟨[], r, by simp, hr, le_refl r, by simp [le_max_left], by simp⟩
  · exact ⟨[], r, by simp, hr, le_refl r, by simp [le_max_left], by simp⟩

theorem waterfallStep3_spec (allocation : AllocationAnalysis) (r : ℚ)
    (l : List SurplusAlloc) :
    ∃ t r3, waterfallStep3 allocation (r, l) = (r3, l ++ t)
      ∧ ((t = [] ∧ r3 = r) ∨ (0 < r ∧ r3 = 0 ∧ t ≠ []))
      ∧ ∀ a ∈ t, a.reason = "allocation_drift" ∧ a.priority = 3 := by
  unfold waterfallStep3
  dsimp only
  split_ifs with h1
  · rcases hsort : stableSort (fun y x => decide (x.2 < y.2))
        ((allocation.drift.filter (fun p => decide (p.2 < -allocation_drift_medium))).map
          (fun p => (p.1, |p.2|))) with - | ⟨primary, rest⟩ <;> rw [hsort]
    · exact ⟨[], r, by simp, Or.inl ⟨rfl, rfl⟩, by simp⟩
    · refine ⟨[_], 0, rfl, Or.inr ⟨h1, rfl, by simp⟩, ?_⟩
      intro a ha
      rw [List.mem_singleton] at ha
      subst ha
      exact ⟨rfl, rfl⟩
  · exact ⟨[], r, by simp, Or.inl ⟨rfl, rfl⟩, by simp⟩

theorem waterfallStep4_spec (allocation : AllocationAnalysis) (r : ℚ)
    (l : List SurplusAlloc) :
    ∃ t, waterfallStep4 allocation (r, l) = (r, l ++ t)
      ∧ (t ≠ [] → 0 < r)
      ∧ ∀ a ∈ t, a.reason = "default_split" ∧ a.priority = 4 := by
  unfold waterfallStep4
  dsimp only
  split_ifs with h1 h2
  · refine ⟨[_, _], rfl, fun _ => h1, ?_⟩
    intro a ha
    rcases List.mem_cons.mp ha with h | h
    · subst h; exact ⟨rfl, rfl⟩
    · rw [List.mem_singleton] at h
      subst h; exact ⟨rfl, rfl⟩
  · exact ⟨[], by simp, fun habs => absurd rfl habs, by simp⟩
  · exact ⟨[], by simp, fun habs => absurd rfl habs, by simp⟩

theorem pairwise_le_of_const (l : List ℕ) (c : ℕ) (h : ∀ x ∈ l, x = c) :
    List.Pairwise (· ≤ ·) l := by
  induction l with
  | nil => exact List.Pairwise.nil
  | cons x xs ih =>
      constructor
      · intro y hy
        rw [h x (List.mem_cons_self x xs), h y (List.mem_cons_of_mem x hy)]
      · exact ih (fun y hy => h y (List.mem_cons_of_mem x hy))

def analysisC1 : FullAnalysis :=
  { goals :=
      { short_term :=
          { description := some "Emergency fund", status := "behind",
            monthly_required := some 500, current_monthly := some 0 }
        summary := { goals_behind := 1, most_urgent := some "short_term" } }
    allocation :=
      { drift := [("retirement", -7), ("taxable_equities", 2), ("crypto", 3), ("cash", 2)] }
    monthly_surplus := 2000 }

def profileC1 : Profile :=
  { monthly_cash_flow := { roth_contributions := some (850/3) } }

/-- C1: with a positive monthly surplus, `generate_surplus_recommendations`
consumes a running remaining-surplus balance through the ordered steps
(urgent-goal shortfall, Roth headroom with its $50 floor, largest
under-allocated category absorbing everything, retirement/taxable-equities
default split): the remaining balance stays between 0 and the surplus, step 1
consumes at most the urgent shortfall, step 2 at most the Roth headroom, the
emitted allocations carry the step reasons in step order, the default split is
reachable only when the drift step found no under-allocated category, and on
the concrete input (surplus 2000, shortfall 500, headroom 300, one
under-allocated category) the emitted allocations are exactly
urgent_goal 500, tax_advantaged 300, allocation_drift 1200, summing to 2000,
in one high-priority surplus recommendation. -/
theorem surplus_waterfall_spec (analysis : FullAnalysis) (profile : Profile)
    (hpos : 0 < analysis.monthly_surplus) :
    (0 ≤ (surplusWaterfall analysis profile).1
      ∧ (surplusWaterfall analysis profile).1 ≤ analysis.monthly_surplus)
    ∧ analysis.monthly_surplus
        - (waterfallStep1 analysis.goals (analysis.monthly_surplus, [])).1
        ≤ max 0 (urgentShortfall analysis.goals)
    ∧ (waterfallStep1 analysis.goals (analysis.monthly_surplus, [])).1
        - (waterfallStep2 profile.tax_situation profile.monthly_cash_flow
            (waterfallStep1 analysis.goals (analysis.monthly_surplus, []))).1
        ≤ max 0 (rothHeadroom profile.monthly_cash_flow)
    ∧ (∀ a ∈ (surplusWaterfall analysis profile).2,
        (a.reason, a.priority) ∈ ([("urgent_goal", 1), ("tax_advantaged", 2),
          ("allocation_drift", 3), ("default_split", 4)] : List (String × ℕ)))
    ∧ List.Pairwise (· ≤ ·)
        ((surplusWaterfall analysis profile).2.map (fun a => a.priority))
    ∧ ((∃ a ∈ (surplusWaterfall analysis profile).2, a.reason = "default_split") →
        ∀ a ∈ (surplusWaterfall analysis profile).2, a.reason ≠ "allocation_drift")
    ∧ (generateSurplusRecommendations analysisC1 profileC1).map
        (fun rec => (rec.type, rec.priority,
          rec.allocations.map (fun a => (a.reason, a.amount))))
        = [("surplus", "high",
            [("urgent_goal", 500), ("tax_advantaged", 300), ("allocation_drift", 1200)])]
    ∧ ((surplusWaterfall analysisC1 profileC1).2.map (fun a => a.amount)).sum = 2000 := by
  obtain ⟨t1, r1, he1, hr1a, hr1b, hc1, hall1⟩ :=
    waterfallStep1_spec analysis.goals analysis.monthly_surplus [] (le_of_lt hpos)
  obtain ⟨t2, r2, he2, hr2a, hr2b, hc2, hall2⟩ :=
    waterfallStep2_spec profile.tax_situation profile.monthly_cash_flow r1 ([] ++ t1) hr1a
  obtain ⟨t3, r3, he3, hdisj3, hall3⟩ :=
    waterfallStep3_spec analysis.allocation r2 (([] ++ t1) ++ t2)
  obtain ⟨t4, he4, hne4, hall4⟩ :=
    waterfallStep4_spec analysis.allocation r3 ((([] ++ t1) ++ t2) ++ t3)
  have hw : surplusWaterfall analysis profile
      = (r3, ((([] ++ t1) ++ t2) ++ t3) ++ t4) := by
    unfold surplusWaterfall
    rw [he1, he2, he3, he4]
  have hr3a : 0 ≤ r3 := by
    rcases hdisj3 with ⟨-, h⟩ | ⟨-, h, -⟩ <;> rw [h] <;> linarith
  have hr3b : r3 ≤ r2 := by
    rcases hdisj3 with ⟨-, h⟩ | ⟨-, h, -⟩ <;> rw [h] <;> linarith
  have hmem4 : ∀ a ∈ ((([] ++ t1) ++ t2) ++ t3) ++ t4,
      a ∈ t1 ∨ a ∈ t2 ∨ a ∈ t3 ∨ a ∈ t4 := by
    intro a ha
    simp only [List.append_assoc, List.nil_append, List.mem_append] at ha
    tauto
  refine ⟨?_, ?_, ?_, ?_, ?_, ?_, ?_, ?_⟩
  · rw [hw]; exact ⟨hr3a, by dsimp only; linarith⟩
  · rw [he1]; exact hc1
  · rw [he1, he2]; exact hc2
  · rw [hw]
    intro a ha
    rcases hmem4 a ha with h | h | h | h
    · rcases hall1 a h with ⟨h1, h2⟩; rw [h1, h2]; simp
    · rcases hall2 a h with ⟨h1, h2⟩; rw [h1, h2]; simp
    · rcases hall3 a h with ⟨h1, h2⟩; rw [h1, h2]; simp
    · rcases hall4 a h with ⟨h1, h2⟩; rw [h1, h2]; simp
  · rw [hw]
    dsimp only
    simp only [List.nil_append, List.map_append]
    have hp1 : List.Pairwise (· ≤ ·) (t1.map (fun a => a.priority)) :=
      pairwise_le_of_const _ 1 (by
        intro x hx
        obtain ⟨a, ha, rfl⟩ := List.mem_map.mp hx
        exact (hall1 a ha).2)
    have hp2 : List.Pairwise (· ≤ ·) (t2.map (fun a => a.priority)) :=
      pairwise_le_of_const _ 2 (by
        intro x hx
        obtain ⟨a, ha, rfl⟩ := List.mem_map.mp hx
        exact (hall2 a ha).2)
    have hp3 : List.Pairwise (· ≤ ·) (t3.map (fun a => a.priority)) :=
      pairwise_le_of_const _ 3 (by
        intro x hx
        obtain ⟨a, ha, rfl⟩ := List.mem_map.mp hx
        exact (hall3 a ha).2)
    have hp4 : List.Pairwise (· ≤ ·) (t4.map (fun a => a.priority)) :=
      pairwise_le_of_const _ 4 (by
        intro x hx
        obtain ⟨a, ha, rfl⟩ := List.mem_map.mp hx
        exact (hall4 a ha).2)
    have hval : ∀ (t : List SurplusAlloc) (c : ℕ),
        (∀ a ∈ t, a.reason = a.reason ∧ a.priority = c) →
        ∀ x ∈ t.map (fun a => a.priority), x = c := by
      intro t c hc x hx
      obtain ⟨a, ha, rfl⟩ := List.mem_map.mp hx
      exact (hc a ha).2
    refine List.pairwise_append.mpr ⟨List.pairwise_append.mpr
      ⟨List.pairwise_append.mpr ⟨hp1, hp2, ?_⟩, hp3, ?_⟩, hp4, ?_⟩
    · intro x hx y hy
      obtain ⟨a, ha, rfl⟩ := List.mem_map.mp hx
      obtain ⟨b, hb, rfl⟩ := List.mem_map.mp hy
      rw [(hall1 a ha).2, (hall2 b hb).2]
      norm_num
    · intro x hx y hy
      obtain ⟨b, hb, rfl⟩ := List.mem_map.mp hy
      rcases List.mem_append.mp hx with hmem | hmem
      · obtain ⟨a, ha, rfl⟩ := List.mem_map.mp hmem
        rw [(hall1 a ha).2, (hall3 b hb).2]; norm_num
      · obtain ⟨a, ha, rfl⟩ := List.mem_map.mp hmem
        rw [(hall2 a ha).2, (hall3 b hb).2]; norm_num
    · intro x hx y hy
      obtain ⟨b, hb, rfl⟩ := List.mem_map.mp hy
      rcases List.mem_append.mp hx with hmem | hmem
      · rcases List.mem_append.mp hmem with hmem2 | hmem2
        · obtain ⟨a, ha, rfl⟩ := List.mem_map.mp hmem2
          rw [(hall1 a ha).2, (hall4 b hb).2]; norm_num
        · obtain ⟨a, ha, rfl⟩ := List.mem_map.mp hmem2
          rw [(hall2 a ha).2, (hall4 b hb).2]; norm_num
      · obtain ⟨a, ha, rfl⟩ := List.mem_map.mp hmem
        rw [(hall3 a ha).2, (hall4 b hb).2]; norm_num
  · rw [hw]
    rintro ⟨a, ha, hreason⟩ b hb hbreason
    have ha4 : a ∈ t4 := by
      rcases hmem4 a ha with h | h | h | h
      · rw [(hall1 a h).1] at hreason; exact absurd hreason (by decide)
      · rw [(hall2 a h).1] at hreason; exact absurd hreason (by decide)
      · rw [(hall3 a h).1] at hreason; exact absurd hreason (by decide)
      · exact h
    have ht4 : t4 ≠ [] := fun hnil => by rw [hnil] at ha4; cases ha4
    have hr3pos : 0 < r3 := hne4 ht4
    have ht3 : t3 = [] := by
      rcases hdisj3 with ⟨h, -⟩ | ⟨-, hz, -⟩
      · exact h
      · rw [hz] at hr3pos; exact absurd hr3pos (lt_irrefl 0)
    rcases hmem4 b hb with h | h | h | h
    · rw [(hall1 b h).1] at hbreason; exact absurd hbreason (by decide)
    · rw [(hall2 b h).1] at hbreason; exact absurd hbreason (by decide)
    · rw [ht3] at h; cases h
    · rw [(hall4 b h).1] at hbreason; exact absurd hbreason (by decide)
  · with_unfolding_all rfl
  · with_unfolding_all rfl

/-- Witness for C1: at the concrete inputs (surplus 2000, urgent shortfall
500, Roth headroom 300, one under-allocated category) the waterfall leaves a
non-negative remaining balance and the positivity hypothesis is discharged. -/
theorem surplus_waterfall_spec_witness :
    0 ≤ (surplusWaterfall analysisC1 profileC1).1
    ∧ (surplusWaterfall analysisC1 profileC1).1 ≤ analysisC1.monthly_surplus :=
  (surplus_waterfall_spec analysisC1 profileC1
    (of_decide_eq_true (by with_unfolding_all rfl))).1

end Finance
